import Mathlib

set_option maxHeartbeats 1000000
set_option maxRecDepth 100000

/-!
Shallow embedding of `src/qoi_procedural.py`: the QOI image codec.

The source exposes three functions:
* `pixels(data, channels)` — reinterprets a flat byte buffer as a stream of
  4-component pixels (alpha synthesised as 255 for 3-channel input, a
  trailing fragment shorter than one pixel silently dropped);
* `qoi_encode(width, height, data, channels, colorspace)` — argument
  validation, then header + per-pixel operation stream + footer;
* `qoi_decode(data)` — header/footer validation, tag-dispatch decode loop,
  optional alpha stripping.

Python `bytes` become `List Nat` (entries < 256 where it matters), Python
ints become `Int` (arguments) or `Nat` (byte values).  Exceptions become
`Except QoiError`; the decoder's non-fatal footer warning (`warnings.warn`)
becomes a `Bool` component of the result.  The 64-slot mutable list
`indexed_pixels` becomes a total map `Nat → Pixel` updated functionally.
-/

/-- One RGBA pixel, as the 4-tuples produced by the source's `pixels` reader. -/
structure Pixel where
  r : Nat
  g : Nat
  b : Nat
  a : Nat
  deriving DecidableEq, Repr

def CHANNELS_RGB : Int := 3

def CHANNELS_RGBA : Int := 4

def COLORSPACE_SRGB_WITH_LINEAR_ALPHA : Int := 0

def COLORSPACE_ALL_CHANNELS_LINEAR : Int := 1

def TAG_QOI_OP_RGB : Nat := 0xfe

def TAG_QOI_OP_RGBA : Nat := 0xff

/-- `0b00 << 6` -/
def TAG_QOI_OP_INDEX : Nat := 0x00

/-- `0b01 << 6` -/
def TAG_QOI_OP_DIFF : Nat := 0x40

/-- `0b10 << 6` -/
def TAG_QOI_OP_LUMA : Nat := 0x80

/-- `0b11 << 6` -/
def TAG_QOI_OP_RUN : Nat := 0xc0

def TAG_QOI_2B_MASK : Nat := 0xc0

/-- `qoi_index_position = lambda r, g, b, a: (r*3 + g*5 + b*7 + a*11) % 64` -/
def qoi_index_position (p : Pixel) : Nat :=
  (p.r * 3 + p.g * 5 + p.b * 7 + p.a * 11) % 64

/-- `s8_arith = lambda x: ((128+x) % 256) - 128` (Python `%` on a positive
modulus is Euclidean, like `Int.emod`). -/
def s8_arith (x : Int) : Int := (128 + x) % 256 - 128

/-- `u8_arith = lambda x: x % 256` -/
def u8_arith (x : Int) : Int := x % 256

/-- The 64-slot pixel cache `indexed_pixels`, as a total map (slots ≥ 64 are
never read or written: `qoi_index_position` is reduced mod 64). -/
def Cache : Type := Nat → Pixel

/-- `[(0, 0, 0, 0)] * 64` -/
def initCache : Cache := fun _ => ⟨0, 0, 0, 0⟩

/-- List assignment `indexed_pixels[i] = p`. -/
def cset (c : Cache) (i : Nat) (p : Pixel) : Cache :=
  fun j => if j = i then p else c j

/-- `pixels(data, 3)`: groups of three bytes, alpha fixed at 255; a trailing
fragment raises `StopIteration` inside the generator and is dropped. -/
def pixels3 : List Nat → List Pixel
  | r :: g :: b :: rest => ⟨r, g, b, 255⟩ :: pixels3 rest
  | _ => []

/-- `pixels(data, c)` for `c ≠ 3`: groups of four bytes. -/
def pixels4 : List Nat → List Pixel
  | r :: g :: b :: a :: rest => ⟨r, g, b, a⟩ :: pixels4 rest
  | _ => []

/-- The generator `pixels(data, channels)`: the alpha component is
`255 if channels==CHANNELS_RGB else next(data_iter)`. -/
def pixels (data : List Nat) (channels : Int) : List Pixel :=
  if channels = CHANNELS_RGB then pixels3 data else pixels4 data

/-- The per-pixel operation selection of `qoi_encode` (the `else` branch of
the run check, source lines 78–105): INDEX, then RGBA on alpha change, then
DIFF / LUMA / RGB.  Returns the emitted bytes and the updated cache. -/
def encOp (prev_pixel : Pixel) (indexed_pixels : Cache) (pixel : Pixel) :
    List Nat × Cache :=
  let prev_index := qoi_index_position pixel
  if indexed_pixels prev_index = pixel then
    ([TAG_QOI_OP_INDEX ||| prev_index], indexed_pixels)
  else if prev_pixel.a ≠ pixel.a then
    ([TAG_QOI_OP_RGBA, pixel.r, pixel.g, pixel.b, pixel.a],
      cset indexed_pixels prev_index pixel)
  else
    let dr := s8_arith ((pixel.r : Int) - (prev_pixel.r : Int))
    let dg := s8_arith ((pixel.g : Int) - (prev_pixel.g : Int))
    let db := s8_arith ((pixel.b : Int) - (prev_pixel.b : Int))
    let dr_dg := s8_arith (dr - dg)
    let db_dg := s8_arith (db - dg)
    if -2 ≤ dr ∧ dr ≤ 1 ∧ -2 ≤ dg ∧ dg ≤ 1 ∧ -2 ≤ db ∧ db ≤ 1 then
      ([TAG_QOI_OP_DIFF ||| (dr + 2).toNat <<< 4 ||| (dg + 2).toNat <<< 2 |||
          (db + 2).toNat],
        cset indexed_pixels prev_index pixel)
    else if -32 ≤ dg ∧ dg ≤ 31 ∧ -8 ≤ dr_dg ∧ dr_dg ≤ 7 ∧ -8 ≤ db_dg ∧ db_dg ≤ 7 then
      ([TAG_QOI_OP_LUMA ||| (dg + 32).toNat,
          (dr_dg + 8).toNat <<< 4 ||| (db_dg + 8).toNat],
        cset indexed_pixels prev_index pixel)
    else
      ([TAG_QOI_OP_RGB, pixel.r, pixel.g, pixel.b],
        cset indexed_pixels prev_index pixel)

/-- The encoder main loop (source lines 65–111) over the loop variables
`prev_pixel`, `indexed_pixels`, `run_count`, including the final pending
run flush at end of stream. -/
def encodeLoop (prev_pixel : Pixel) (indexed_pixels : Cache) (run_count : Nat) :
    List Pixel → List Nat
  | [] => if 0 < run_count then [TAG_QOI_OP_RUN ||| (run_count - 1)] else []
  | pixel :: rest =>
    if pixel = prev_pixel then
      if run_count + 1 = 62 then
        (TAG_QOI_OP_RUN ||| 61) :: encodeLoop prev_pixel indexed_pixels 0 rest
      else
        encodeLoop prev_pixel indexed_pixels (run_count + 1) rest
    else
      (if 0 < run_count then [TAG_QOI_OP_RUN ||| (run_count - 1)] else []) ++
        (encOp prev_pixel indexed_pixels pixel).1 ++
        encodeLoop pixel (encOp prev_pixel indexed_pixels pixel).2 0 rest

/-- Big-endian `struct.pack('>I', n)` for `0 ≤ n < 2^32`. -/
def pack_be32 (n : Nat) : List Nat :=
  [n >>> 24 &&& 0xff, n >>> 16 &&& 0xff, n >>> 8 &&& 0xff, n &&& 0xff]

/-- The bytes of `b'qoif'`. -/
def qoifMagic : List Nat := [0x71, 0x6f, 0x69, 0x66]

/-- `pack('>4sIIBB', b'qoif', width, height, channels, colorspace)`. -/
def qoiHeader (w h c cs : Nat) : List Nat :=
  qoifMagic ++ pack_be32 w ++ pack_be32 h ++ [c, cs]

/-- `b'\x00'*7 + b'\x01'`. -/
def qoiFooter : List Nat := [0, 0, 0, 0, 0, 0, 0, 1]

/-- Failure kinds of the source: `valueError` for the explicit `raise
ValueError(...)` sites, `structError` for `struct.pack`/`unpack_from` range
failures, `stopIteration` for a bare `next()` exhaustion escaping
`qoi_decode`'s loop.  `truncatedDataError` is modelled from the spec (§7,
§9): the distinct error kind the spec prescribes for mid-operation
truncation; the source never raises it. -/
inductive QoiError where
  | valueError : String → QoiError
  | structError : QoiError
  | stopIteration : QoiError
  | truncatedDataError : QoiError
  deriving DecidableEq, Repr

instance {ε α : Type} [DecidableEq ε] [DecidableEq α] : DecidableEq (Except ε α) :=
  fun x y =>
    match x, y with
    | .ok a, .ok b => decidable_of_iff (a = b) (by simp)
    | .error e, .error f => decidable_of_iff (e = f) (by simp)
    | .ok _, .error _ => isFalse (by simp)
    | .error _, .ok _ => isFalse (by simp)

/-- `qoi_encode(width, height, data, channels, colorspace)` (source lines
41–115).  The five `ValueError` checks come first, in source order; the
`2^32 ≤ width ∨ 2^32 ≤ height` branch models `struct.pack('>I', ...)`
raising `struct.error` when a dimension does not fit in 32 bits (the pixel
bytes themselves come from a Python `bytes` object and are < 256 by type,
so their `pack('>B', ...)` calls cannot fail). -/
def qoi_encode (width height : Int) (data : List Nat) (channels : Int := 3)
    (colorspace : Int := 0) : Except QoiError (List Nat) :=
  if width ≤ 0 then
    .error (.valueError ("width must be larger than 0."))
  else if height ≤ 0 then
    .error (.valueError ("height must be larger than 0."))
  else if ¬(channels = CHANNELS_RGB ∨ channels = CHANNELS_RGBA) then
    .error (.valueError ("channels must be CHANNELS_RGB (3) or CHANNELS_RGBA (4)."))
  else if ¬(colorspace = COLORSPACE_SRGB_WITH_LINEAR_ALPHA ∨
      colorspace = COLORSPACE_ALL_CHANNELS_LINEAR) then
    .error (.valueError ("colorspace must be COLORSPACE_SRGB_WITH_LINEAR_ALPHA (0) or COLORSPACE_ALL_CHANNELS_LINEAR (1)."))
  else if (data.length : Int) < width * height * channels then
    .error (.valueError ("data is too short."))
  else if 4294967296 ≤ width ∨ 4294967296 ≤ height then
    .error .structError
  else
    .ok (qoiHeader width.toNat height.toNat channels.toNat colorspace.toNat ++
      (encodeLoop ⟨0, 0, 0, 255⟩ initCache 0 (pixels data channels) ++ qoiFooter))

mutual

/-- The decoder tag-dispatch loop of `qoi_decode` (source lines 134–181),
over the operation-byte region.  The operand reads (`next(data_iter)`) of
the RGB, RGBA and LUMA operations are split into the three helpers below; a
`next(data_iter)` past the end of the region is the uncaught
`StopIteration` of the source. -/
def decodeLoop : List Nat → Pixel → Cache → Except QoiError (List Pixel)
  | [], _, _ => .ok []
  | tag :: rest, prev_pixel, indexed_pixels =>
    if tag = TAG_QOI_OP_RGB then decodeRGB rest prev_pixel indexed_pixels
    else if tag = TAG_QOI_OP_RGBA then decodeRGBA rest indexed_pixels
    else if tag &&& TAG_QOI_2B_MASK = TAG_QOI_OP_INDEX then
      let px := indexed_pixels (tag &&& 0x3f)
      Except.map (fun l => px :: l)
        (decodeLoop rest px (cset indexed_pixels (qoi_index_position px) px))
    else if tag &&& TAG_QOI_2B_MASK = TAG_QOI_OP_DIFF then
      let px : Pixel :=
        ⟨(u8_arith ((prev_pixel.r : Int) + ((tag >>> 4 &&& 0x3 : Nat) : Int) - 2)).toNat,
         (u8_arith ((prev_pixel.g : Int) + ((tag >>> 2 &&& 0x3 : Nat) : Int) - 2)).toNat,
         (u8_arith ((prev_pixel.b : Int) + ((tag &&& 0x3 : Nat) : Int) - 2)).toNat,
         prev_pixel.a⟩
      Except.map (fun l => px :: l)
        (decodeLoop rest px (cset indexed_pixels (qoi_index_position px) px))
    else if tag &&& TAG_QOI_2B_MASK = TAG_QOI_OP_LUMA then
      decodeLUMA tag rest prev_pixel indexed_pixels
    else
      let run_len_biased := tag &&& 0x3f
      Except.map (fun l => List.replicate run_len_biased prev_pixel ++ prev_pixel :: l)
        (decodeLoop rest prev_pixel
          (cset indexed_pixels (qoi_index_position prev_pixel) prev_pixel))

/-- The `TAG_QOI_OP_RGB` branch: read three operand bytes, keep the previous
alpha. -/
def decodeRGB : List Nat → Pixel → Cache → Except QoiError (List Pixel)
  | r :: g :: b :: rest2, prev_pixel, indexed_pixels =>
    let px : Pixel := ⟨r, g, b, prev_pixel.a⟩
    Except.map (fun l => px :: l)
      (decodeLoop rest2 px (cset indexed_pixels (qoi_index_position px) px))
  | _, _, _ => .error .stopIteration

/-- The `TAG_QOI_OP_RGBA` branch: read four operand bytes. -/
def decodeRGBA : List Nat → Cache → Except QoiError (List Pixel)
  | r :: g :: b :: a :: rest2, indexed_pixels =>
    let px : Pixel := ⟨r, g, b, a⟩
    Except.map (fun l => px :: l)
      (decodeLoop rest2 px (cset indexed_pixels (qoi_index_position px) px))
  | _, _ => .error .stopIteration

/-- The `TAG_QOI_OP_LUMA` branch: read the second byte holding the two
relative diffs. -/
def decodeLUMA (tag : Nat) : List Nat → Pixel → Cache → Except QoiError (List Pixel)
  | diffs :: rest2, prev_pixel, indexed_pixels =>
    let dg : Int := ((tag &&& 0x3f : Nat) : Int) - 32
    let dr_dg : Int := ((diffs >>> 4 &&& 0xf : Nat) : Int) - 8
    let db_dg : Int := ((diffs &&& 0xf : Nat) : Int) - 8
    let px : Pixel :=
      ⟨(u8_arith ((prev_pixel.r : Int) + dr_dg + dg)).toNat,
       (u8_arith ((prev_pixel.g : Int) + dg)).toNat,
       (u8_arith ((prev_pixel.b : Int) + db_dg + dg)).toNat,
       prev_pixel.a⟩
    Except.map (fun l => px :: l)
      (decodeLoop rest2 px (cset indexed_pixels (qoi_index_position px) px))
  | _, _, _ => .error .stopIteration

end

/-- `compress(..., cycle((1, 1, 1, 0)))`: drop every fourth byte. -/
def stripAlpha : List Nat → List Nat
  | a :: b :: c :: _ :: rest => a :: b :: c :: stripAlpha rest
  | l => l

/-- `qoi_decode(data)` (source lines 118–186).  The result pairs the
non-fatal footer warning (`warnings.warn`, `True` when the trailing 8 bytes
are not the expected footer and a warning was emitted) with the decode
outcome.  The header's width, height and colorspace fields are unpacked by
the source but never used; only the magic and the channel count are. -/
def qoi_decode (data : List Nat) : Bool × Except QoiError (List Nat) :=
  if data.length < 14 then (false, .error .structError)
  else if data.take 4 ≠ qoifMagic then
    (false, .error (.valueError ("qoi file invalid!")))
  else
    let warned := data.drop (data.length - 8) ≠ qoiFooter
    let channels := data.getD 12 0
    if ¬(channels = 3 ∨ channels = 4) then
      (warned, .error (.valueError ("Encoded channels invalid!")))
    else
      match decodeLoop ((data.drop 14).take (data.length - 22)) ⟨0, 0, 0, 255⟩
          initCache with
      | .error e => (warned, .error e)
      | .ok out =>
        if channels = 4 then
          (warned, .ok (out.map (fun p => [p.r, p.g, p.b, p.a])).flatten)
        else
          (warned, .ok (stripAlpha (out.map (fun p => [p.r, p.g, p.b, p.a])).flatten))

/-! ### Basic lemmas about the cache and the emitted operation bytes -/

theorem cset_self (c : Cache) (i : Nat) (p : Pixel) : cset c i p i = p := by
  simp [cset]

theorem cset_other (c : Cache) (i j : Nat) (p : Pixel) (h : j ≠ i) :
    cset c i p j = c j := by
  simp [cset, h]

theorem qoi_index_position_lt (p : Pixel) : qoi_index_position p < 64 :=
  Nat.mod_lt _ (by omega)

theorem qoi_index_position_initial : qoi_index_position ⟨0, 0, 0, 255⟩ = 53 := by decide

theorem qoi_index_position_zero : qoi_index_position ⟨0, 0, 0, 0⟩ = 0 := by decide

/-- How the decoder's tag dispatch classifies an INDEX byte. -/
theorem index_byte_facts : ∀ i, i < 64 →
    (TAG_QOI_OP_INDEX ||| i) ≠ TAG_QOI_OP_RGB ∧
    (TAG_QOI_OP_INDEX ||| i) ≠ TAG_QOI_OP_RGBA ∧
    (TAG_QOI_OP_INDEX ||| i) &&& TAG_QOI_2B_MASK = TAG_QOI_OP_INDEX ∧
    (TAG_QOI_OP_INDEX ||| i) &&& 0x3f = i := by decide

/-- How the decoder's tag dispatch classifies a RUN byte. -/
theorem run_byte_facts : ∀ k, k < 62 →
    (TAG_QOI_OP_RUN ||| k) ≠ TAG_QOI_OP_RGB ∧
    (TAG_QOI_OP_RUN ||| k) ≠ TAG_QOI_OP_RGBA ∧
    (TAG_QOI_OP_RUN ||| k) &&& TAG_QOI_2B_MASK ≠ TAG_QOI_OP_INDEX ∧
    (TAG_QOI_OP_RUN ||| k) &&& TAG_QOI_2B_MASK ≠ TAG_QOI_OP_DIFF ∧
    (TAG_QOI_OP_RUN ||| k) &&& TAG_QOI_2B_MASK ≠ TAG_QOI_OP_LUMA ∧
    (TAG_QOI_OP_RUN ||| k) &&& 0x3f = k := by decide

/-- How the decoder's tag dispatch classifies a DIFF byte, and how it
recovers the three packed 2-bit fields. -/
theorem diff_byte_facts (a b c : Nat) (ha : a < 4) (hb : b < 4) (hc : c < 4) :
    (TAG_QOI_OP_DIFF ||| a <<< 4 ||| b <<< 2 ||| c) ≠ TAG_QOI_OP_RGB ∧
    (TAG_QOI_OP_DIFF ||| a <<< 4 ||| b <<< 2 ||| c) ≠ TAG_QOI_OP_RGBA ∧
    (TAG_QOI_OP_DIFF ||| a <<< 4 ||| b <<< 2 ||| c) &&& TAG_QOI_2B_MASK ≠ TAG_QOI_OP_INDEX ∧
    (TAG_QOI_OP_DIFF ||| a <<< 4 ||| b <<< 2 ||| c) &&& TAG_QOI_2B_MASK = TAG_QOI_OP_DIFF ∧
    (TAG_QOI_OP_DIFF ||| a <<< 4 ||| b <<< 2 ||| c) >>> 4 &&& 0x3 = a ∧
    (TAG_QOI_OP_DIFF ||| a <<< 4 ||| b <<< 2 ||| c) >>> 2 &&& 0x3 = b ∧
    (TAG_QOI_OP_DIFF ||| a <<< 4 ||| b <<< 2 ||| c) &&& 0x3 = c := by
  interval_cases a <;> interval_cases b <;> interval_cases c <;> decide

/-- How the decoder's tag dispatch classifies a LUMA tag byte. -/
theorem luma_byte_facts : ∀ d, d < 64 →
    (TAG_QOI_OP_LUMA ||| d) ≠ TAG_QOI_OP_RGB ∧
    (TAG_QOI_OP_LUMA ||| d) ≠ TAG_QOI_OP_RGBA ∧
    (TAG_QOI_OP_LUMA ||| d) &&& TAG_QOI_2B_MASK ≠ TAG_QOI_OP_INDEX ∧
    (TAG_QOI_OP_LUMA ||| d) &&& TAG_QOI_2B_MASK ≠ TAG_QOI_OP_DIFF ∧
    (TAG_QOI_OP_LUMA ||| d) &&& TAG_QOI_2B_MASK = TAG_QOI_OP_LUMA ∧
    (TAG_QOI_OP_LUMA ||| d) &&& 0x3f = d := by decide

/-- How the decoder recovers the two packed 4-bit fields of a LUMA second
byte. -/
theorem luma_diffs_facts : ∀ x, x < 16 → ∀ y, y < 16 →
    (x <<< 4 ||| y) >>> 4 &&& 0xf = x ∧ (x <<< 4 ||| y) &&& 0xf = y := by decide

/-! ### Wraparound arithmetic: the decoder inverts the encoder's deltas -/

/-- DIFF reconstruction: adding back the biased 2-bit field recovers the
original byte.  The range hypothesis is the encoder's DIFF branch
condition. -/
theorem diff_decode_round (x y : Nat) (hx : x < 256)
    (hr : -2 ≤ s8_arith ((x : Int) - (y : Int)) ∧ s8_arith ((x : Int) - (y : Int)) ≤ 1) :
    (u8_arith ((y : Int) + ((s8_arith ((x : Int) - (y : Int)) + 2).toNat : Int) - 2)).toNat
      = x := by
  rw [Int.toNat_of_nonneg (by omega)]
  simp only [u8_arith, s8_arith] at hr ⊢
  omega

/-- LUMA green reconstruction.  The range hypothesis is the encoder's LUMA
branch condition on the green delta. -/
theorem luma_decode_green (x y : Nat) (hx : x < 256)
    (hr : -32 ≤ s8_arith ((x : Int) - (y : Int)) ∧ s8_arith ((x : Int) - (y : Int)) ≤ 31) :
    (u8_arith ((y : Int) +
      (((s8_arith ((x : Int) - (y : Int)) + 32).toNat : Int) - 32))).toNat = x := by
  rw [Int.toNat_of_nonneg (by omega)]
  simp only [u8_arith, s8_arith] at hr ⊢
  omega

/-- LUMA red/blue reconstruction: the channel delta is rebuilt from the
green delta and the channel-relative delta.  The range hypotheses are the
encoder's LUMA branch conditions. -/
theorem luma_decode_chroma (x y g pg : Nat) (hx : x < 256)
    (hg : -32 ≤ s8_arith ((g : Int) - (pg : Int)) ∧ s8_arith ((g : Int) - (pg : Int)) ≤ 31)
    (hrel : -8 ≤ s8_arith (s8_arith ((x : Int) - (y : Int)) - s8_arith ((g : Int) - (pg : Int))) ∧
      s8_arith (s8_arith ((x : Int) - (y : Int)) - s8_arith ((g : Int) - (pg : Int))) ≤ 7) :
    (u8_arith ((y : Int) +
      (((s8_arith (s8_arith ((x : Int) - (y : Int)) - s8_arith ((g : Int) - (pg : Int)))
          + 8).toNat : Int) - 8) +
      (((s8_arith ((g : Int) - (pg : Int)) + 32).toNat : Int) - 32))).toNat = x := by
  rw [Int.toNat_of_nonneg (by omega), Int.toNat_of_nonneg (by omega)]
  simp only [u8_arith, s8_arith] at hg hrel ⊢
  omega

/-! ### One-step unfoldings of the decoder on each operation shape -/

theorem decodeLoop_rgb (r g b : Nat) (tail : List Nat) (prev : Pixel) (dc : Cache) :
    decodeLoop (TAG_QOI_OP_RGB :: r :: g :: b :: tail) prev dc =
      Except.map (fun l => (⟨r, g, b, prev.a⟩ : Pixel) :: l)
        (decodeLoop tail ⟨r, g, b, prev.a⟩
          (cset dc (qoi_index_position ⟨r, g, b, prev.a⟩) ⟨r, g, b, prev.a⟩)) := by
  rw [decodeLoop, if_pos rfl, decodeRGB]

theorem decodeLoop_rgba (r g b a : Nat) (tail : List Nat) (prev : Pixel) (dc : Cache) :
    decodeLoop (TAG_QOI_OP_RGBA :: r :: g :: b :: a :: tail) prev dc =
      Except.map (fun l => (⟨r, g, b, a⟩ : Pixel) :: l)
        (decodeLoop tail ⟨r, g, b, a⟩
          (cset dc (qoi_index_position ⟨r, g, b, a⟩) ⟨r, g, b, a⟩)) := by
  rw [decodeLoop, if_neg (by decide), if_pos rfl, decodeRGBA]

theorem decodeLoop_index (i : Nat) (hi : i < 64) (tail : List Nat) (prev : Pixel)
    (dc : Cache) :
    decodeLoop ((TAG_QOI_OP_INDEX ||| i) :: tail) prev dc =
      Except.map (fun l => dc i :: l)
        (decodeLoop tail (dc i) (cset dc (qoi_index_position (dc i)) (dc i))) := by
  obtain ⟨h1, h2, h3, h4⟩ := index_byte_facts i hi
  rw [decodeLoop, if_neg h1, if_neg h2, if_pos h3, h4]

theorem decodeLoop_run (k : Nat) (hk : k < 62) (tail : List Nat) (prev : Pixel)
    (dc : Cache) :
    decodeLoop ((TAG_QOI_OP_RUN ||| k) :: tail) prev dc =
      Except.map (fun l => List.replicate k prev ++ prev :: l)
        (decodeLoop tail prev (cset dc (qoi_index_position prev) prev)) := by
  obtain ⟨h1, h2, h3, h4, h5, h6⟩ := run_byte_facts k hk
  rw [decodeLoop, if_neg h1, if_neg h2, if_neg h3, if_neg h4, if_neg h5, h6]

theorem decodeLoop_diff (a b c : Nat) (ha : a < 4) (hb : b < 4) (hc : c < 4)
    (tail : List Nat) (prev : Pixel) (dc : Cache) :
    decodeLoop ((TAG_QOI_OP_DIFF ||| a <<< 4 ||| b <<< 2 ||| c) :: tail) prev dc =
      Except.map
        (fun l => (⟨(u8_arith ((prev.r : Int) + (a : Int) - 2)).toNat,
          (u8_arith ((prev.g : Int) + (b : Int) - 2)).toNat,
          (u8_arith ((prev.b : Int) + (c : Int) - 2)).toNat, prev.a⟩ : Pixel) :: l)
        (decodeLoop tail
          ⟨(u8_arith ((prev.r : Int) + (a : Int) - 2)).toNat,
           (u8_arith ((prev.g : Int) + (b : Int) - 2)).toNat,
           (u8_arith ((prev.b : Int) + (c : Int) - 2)).toNat, prev.a⟩
          (cset dc
            (qoi_index_position
              ⟨(u8_arith ((prev.r : Int) + (a : Int) - 2)).toNat,
               (u8_arith ((prev.g : Int) + (b : Int) - 2)).toNat,
               (u8_arith ((prev.b : Int) + (c : Int) - 2)).toNat, prev.a⟩)
            ⟨(u8_arith ((prev.r : Int) + (a : Int) - 2)).toNat,
             (u8_arith ((prev.g : Int) + (b : Int) - 2)).toNat,
             (u8_arith ((prev.b : Int) + (c : Int) - 2)).toNat, prev.a⟩)) := by
  obtain ⟨h1, h2, h3, h4, h5, h6, h7⟩ := diff_byte_facts a b c ha hb hc
  rw [decodeLoop, if_neg h1, if_neg h2, if_neg h3, if_pos h4, h5, h6, h7]

theorem decodeLoop_luma (d x y : Nat) (hd : d < 64) (hx : x < 16) (hy : y < 16)
    (tail : List Nat) (prev : Pixel) (dc : Cache) :
    decodeLoop ((TAG_QOI_OP_LUMA ||| d) :: (x <<< 4 ||| y) :: tail) prev dc =
      Except.map
        (fun l => (⟨(u8_arith ((prev.r : Int) + ((x : Int) - 8) + ((d : Int) - 32))).toNat,
          (u8_arith ((prev.g : Int) + ((d : Int) - 32))).toNat,
          (u8_arith ((prev.b : Int) + ((y : Int) - 8) + ((d : Int) - 32))).toNat,
          prev.a⟩ : Pixel) :: l)
        (decodeLoop tail
          ⟨(u8_arith ((prev.r : Int) + ((x : Int) - 8) + ((d : Int) - 32))).toNat,
           (u8_arith ((prev.g : Int) + ((d : Int) - 32))).toNat,
           (u8_arith ((prev.b : Int) + ((y : Int) - 8) + ((d : Int) - 32))).toNat,
           prev.a⟩
          (cset dc
            (qoi_index_position
              ⟨(u8_arith ((prev.r : Int) + ((x : Int) - 8) + ((d : Int) - 32))).toNat,
               (u8_arith ((prev.g : Int) + ((d : Int) - 32))).toNat,
               (u8_arith ((prev.b : Int) + ((y : Int) - 8) + ((d : Int) - 32))).toNat,
               prev.a⟩)
            ⟨(u8_arith ((prev.r : Int) + ((x : Int) - 8) + ((d : Int) - 32))).toNat,
             (u8_arith ((prev.g : Int) + ((d : Int) - 32))).toNat,
             (u8_arith ((prev.b : Int) + ((y : Int) - 8) + ((d : Int) - 32))).toNat,
             prev.a⟩)) := by
  obtain ⟨h1, h2, h3, h4, h5, h6⟩ := luma_byte_facts d hd
  obtain ⟨h7, h8⟩ := luma_diffs_facts x hx y hy
  rw [decodeLoop, if_neg h1, if_neg h2, if_neg h3, if_neg h4, if_pos h5, decodeLUMA,
    h6, h7, h8]

/-! ### The encoder/decoder cache synchronisation invariant

The decoder refreshes the cache after every operation (including INDEX and
RUN), the encoder only on RGBA/DIFF/LUMA/RGB.  The caches can therefore
differ in exactly one way: after a run of the initial previous pixel
`(0,0,0,255)` the decoder has stored that pixel at its hash slot 53 while
the encoder still has the initial `(0,0,0,0)` there.  That divergence is
harmless (the encoder never emits INDEX 53 while its slot 53 still holds
`(0,0,0,0)`, whose hash is 0) and heals at the first encoder store to
slot 53. -/

def CacheSync (ec dc : Cache) (prev : Pixel) : Prop :=
  (∀ i, dc i = ec i ∨ (i = 53 ∧ dc i = ⟨0, 0, 0, 255⟩ ∧ ec i = ⟨0, 0, 0, 0⟩)) ∧
  (ec (qoi_index_position prev) = prev ∨
    (prev = ⟨0, 0, 0, 255⟩ ∧ ec 53 = ⟨0, 0, 0, 0⟩))

theorem cacheSync_init : CacheSync initCache initCache ⟨0, 0, 0, 255⟩ :=
  ⟨fun _ => Or.inl rfl, Or.inr ⟨rfl, rfl⟩⟩

/-- If the encoder's cache hits at a pixel's slot, so does the decoder's. -/
theorem cacheSync_lookup {ec dc : Cache} {prev p : Pixel} (h : CacheSync ec dc prev)
    (hp : ec (qoi_index_position p) = p) : dc (qoi_index_position p) = p := by
  rcases h.1 (qoi_index_position p) with h1 | ⟨hi, _, hec⟩
  · rw [h1, hp]
  · exfalso
    rw [hi] at hec hp
    rw [hec] at hp
    have : qoi_index_position p = 0 := by rw [← hp]; decide
    omega

/-- The decoder's cache refresh on a RUN op preserves the invariant. -/
theorem cacheSync_run_write {ec dc : Cache} {prev : Pixel} (h : CacheSync ec dc prev) :
    CacheSync ec (cset dc (qoi_index_position prev) prev) prev := by
  refine ⟨fun i => ?_, h.2⟩
  by_cases hi : i = qoi_index_position prev
  · subst hi
    rw [cset_self]
    rcases h.2 with hp | ⟨hp0, hz⟩
    · exact Or.inl hp.symm
    · subst hp0
      rw [qoi_index_position_initial]
      exact Or.inr ⟨rfl, rfl, hz⟩
  · rw [cset_other _ _ _ _ hi]
    exact h.1 i

/-- A store by both sides (RGBA/DIFF/LUMA/RGB ops) preserves the invariant
and establishes it for the stored pixel as new previous pixel. -/
theorem cacheSync_store {ec dc : Cache} {prev : Pixel} (p : Pixel)
    (h : CacheSync ec dc prev) :
    CacheSync (cset ec (qoi_index_position p) p) (cset dc (qoi_index_position p) p) p := by
  constructor
  · intro i
    by_cases hi : i = qoi_index_position p
    · subst hi; rw [cset_self, cset_self]; exact Or.inl rfl
    · rw [cset_other _ _ _ _ hi, cset_other _ _ _ _ hi]
      exact h.1 i
  · exact Or.inl (cset_self _ _ _)

/-- A decoder-only refresh on an INDEX op (the encoder's cache already holds
the pixel) preserves the invariant. -/
theorem cacheSync_index {ec dc : Cache} {prev p : Pixel} (h : CacheSync ec dc prev)
    (hp : ec (qoi_index_position p) = p) :
    CacheSync ec (cset dc (qoi_index_position p) p) p := by
  constructor
  · intro i
    by_cases hi : i = qoi_index_position p
    · subst hi; rw [cset_self]; exact Or.inl hp.symm
    · rw [cset_other _ _ _ _ hi]; exact h.1 i
  · exact Or.inl hp

/-! ### One encoded operation decodes back to its pixel -/

/-- Decoding the bytes `encOp` emits for pixel `p` produces exactly `p`,
advances the decoder past those bytes, and keeps the two caches in sync.
The byte bounds come from the pixel having been read from a `bytes`
buffer. -/
theorem decode_op (prev p : Pixel) (ec dc : Cache) (tail : List Nat)
    (hsync : CacheSync ec dc prev)
    (hbytes : p.r < 256 ∧ p.g < 256 ∧ p.b < 256) :
    decodeLoop ((encOp prev ec p).1 ++ tail) prev dc =
      Except.map (fun l => p :: l)
        (decodeLoop tail p (cset dc (qoi_index_position p) p)) ∧
    CacheSync (encOp prev ec p).2 (cset dc (qoi_index_position p) p) p := by
  obtain ⟨hr, hg, hb⟩ := hbytes
  by_cases hidx : ec (qoi_index_position p) = p
  · -- INDEX
    simp only [encOp, if_pos hidx]
    rw [List.singleton_append, decodeLoop_index _ (qoi_index_position_lt p) tail prev dc,
      cacheSync_lookup hsync hidx]
    exact ⟨rfl, cacheSync_index hsync hidx⟩
  · by_cases halpha : prev.a ≠ p.a
    · -- RGBA
      simp only [encOp, if_neg hidx, if_pos halpha]
      rw [List.cons_append, List.cons_append, List.cons_append, List.cons_append,
        List.singleton_append, decodeLoop_rgba p.r p.g p.b p.a tail prev dc]
      exact ⟨rfl, cacheSync_store p hsync⟩
    · rw [not_not] at halpha
      by_cases hdiff : -2 ≤ s8_arith ((p.r : Int) - (prev.r : Int)) ∧
          s8_arith ((p.r : Int) - (prev.r : Int)) ≤ 1 ∧
          -2 ≤ s8_arith ((p.g : Int) - (prev.g : Int)) ∧
          s8_arith ((p.g : Int) - (prev.g : Int)) ≤ 1 ∧
          -2 ≤ s8_arith ((p.b : Int) - (prev.b : Int)) ∧
          s8_arith ((p.b : Int) - (prev.b : Int)) ≤ 1
      · -- DIFF
        simp only [encOp, if_neg hidx, if_neg (not_not_intro halpha), if_pos hdiff]
        obtain ⟨h1, h2, h3, h4, h5, h6⟩ := hdiff
        rw [List.singleton_append,
          decodeLoop_diff _ _ _ (by omega) (by omega) (by omega) tail prev dc,
          diff_decode_round p.r prev.r hr ⟨h1, h2⟩,
          diff_decode_round p.g prev.g hg ⟨h3, h4⟩,
          diff_decode_round p.b prev.b hb ⟨h5, h6⟩, halpha]
        exact ⟨rfl, cacheSync_store p hsync⟩
      · by_cases hluma : -32 ≤ s8_arith ((p.g : Int) - (prev.g : Int)) ∧
            s8_arith ((p.g : Int) - (prev.g : Int)) ≤ 31 ∧
            -8 ≤ s8_arith (s8_arith ((p.r : Int) - (prev.r : Int)) -
              s8_arith ((p.g : Int) - (prev.g : Int))) ∧
            s8_arith (s8_arith ((p.r : Int) - (prev.r : Int)) -
              s8_arith ((p.g : Int) - (prev.g : Int))) ≤ 7 ∧
            -8 ≤ s8_arith (s8_arith ((p.b : Int) - (prev.b : Int)) -
              s8_arith ((p.g : Int) - (prev.g : Int))) ∧
            s8_arith (s8_arith ((p.b : Int) - (prev.b : Int)) -
              s8_arith ((p.g : Int) - (prev.g : Int))) ≤ 7
        · -- LUMA
          simp only [encOp, if_neg hidx, if_neg (not_not_intro halpha), if_neg hdiff,
            if_pos hluma]
          obtain ⟨h1, h2, h3, h4, h5, h6⟩ := hluma
          rw [List.cons_append, List.singleton_append,
            decodeLoop_luma _ _ _ (by omega) (by omega) (by omega) tail prev dc,
            luma_decode_chroma p.r prev.r p.g prev.g hr ⟨h1, h2⟩ ⟨h3, h4⟩,
            luma_decode_green p.g prev.g hg ⟨h1, h2⟩,
            luma_decode_chroma p.b prev.b p.g prev.g hb ⟨h1, h2⟩ ⟨h5, h6⟩, halpha]
          exact ⟨rfl, cacheSync_store p hsync⟩
        · -- RGB
          simp only [encOp, if_neg hidx, if_neg (not_not_intro halpha), if_neg hdiff,
            if_neg hluma]
          rw [List.cons_append, List.cons_append, List.cons_append,
            List.singleton_append, decodeLoop_rgb p.r p.g p.b tail prev dc, halpha]
          exact ⟨rfl, cacheSync_store p hsync⟩

theorem replicate_succ_append {α : Type} (n : Nat) (a : α) (l : List α) :
    List.replicate n a ++ a :: l = List.replicate (n + 1) a ++ l := by
  rw [List.replicate_succ', List.append_assoc, List.singleton_append]

/-- Decoding the encoder's operation stream reproduces the pixel sequence.
The decoder is `run` pixels behind while a run is pending, in state
`(prev, dc)` synchronised with the encoder's `(prev, ec)`. -/
theorem decodeLoop_encodeLoop (ps : List Pixel) :
    ∀ (prev : Pixel) (ec dc : Cache) (run : Nat),
    run < 62 → CacheSync ec dc prev →
    (∀ p ∈ ps, p.r < 256 ∧ p.g < 256 ∧ p.b < 256) →
    decodeLoop (encodeLoop prev ec run ps) prev dc =
      .ok (List.replicate run prev ++ ps) := by
  induction ps with
  | nil =>
    intro prev ec dc run hrun hsync _
    by_cases h : 0 < run
    · rw [encodeLoop, if_pos h, decodeLoop_run (run - 1) (by omega) [] prev dc,
        decodeLoop]
      simp only [Except.map]
      rw [replicate_succ_append]
      have he : run - 1 + 1 = run := by omega
      rw [he, List.append_nil]
    · have h0 : run = 0 := by omega
      rw [encodeLoop, if_neg h, decodeLoop, h0, List.replicate_zero, List.nil_append]
  | cons p rest ih =>
    intro prev ec dc run hrun hsync hb
    have hbp := hb p (List.mem_cons_self p rest)
    have hbrest : ∀ q ∈ rest, q.r < 256 ∧ q.g < 256 ∧ q.b < 256 :=
      fun q hq => hb q (List.mem_cons_of_mem p hq)
    by_cases heq : p = prev
    · rw [encodeLoop, if_pos heq]
      by_cases h62 : run + 1 = 62
      · rw [if_pos h62, decodeLoop_run 61 (by omega),
          ih prev ec _ 0 (by omega) (cacheSync_run_write hsync) hbrest]
        simp only [Except.map]
        subst heq
        rw [List.replicate_zero, List.nil_append]
        have he : run = 61 := by omega
        rw [he]
      · rw [if_neg h62, ih prev ec dc (run + 1) (by omega) hsync hbrest]
        subst heq
        rw [replicate_succ_append]
    · rw [encodeLoop, if_neg heq]
      by_cases h : 0 < run
      · rw [if_pos h, List.append_assoc, List.singleton_append,
          decodeLoop_run (run - 1) (by omega)]
        have hop := decode_op prev p ec (cset dc (qoi_index_position prev) prev)
          (encodeLoop p (encOp prev ec p).2 0 rest) (cacheSync_run_write hsync) hbp
        rw [hop.1, ih p (encOp prev ec p).2 _ 0 (by omega) hop.2 hbrest]
        simp only [Except.map]
        rw [List.replicate_zero, List.nil_append, replicate_succ_append]
        have he : run - 1 + 1 = run := by omega
        rw [he]
      · have h0 : run = 0 := by omega
        rw [if_neg h, List.nil_append]
        have hop := decode_op prev p ec dc
          (encodeLoop p (encOp prev ec p).2 0 rest) hsync hbp
        rw [hop.1, ih p (encOp prev ec p).2 _ 0 (by omega) hop.2 hbrest]
        simp only [Except.map]
        rw [List.replicate_zero, List.nil_append, h0, List.replicate_zero,
          List.nil_append]

/-! ### Slicing a well-formed stream back into header, ops and footer -/

theorem qoiHeader_length (w h c cs : Nat) : (qoiHeader w h c cs).length = 14 := by
  simp [qoiHeader, qoifMagic, pack_be32]

theorem qoiHeader_cons (w h c cs : Nat) (t : List Nat) :
    qoiHeader w h c cs ++ t =
      0x71 :: 0x6f :: 0x69 :: 0x66 :: (w >>> 24 &&& 0xff) :: (w >>> 16 &&& 0xff) ::
        (w >>> 8 &&& 0xff) :: (w &&& 0xff) :: (h >>> 24 &&& 0xff) ::
        (h >>> 16 &&& 0xff) :: (h >>> 8 &&& 0xff) :: (h &&& 0xff) :: c :: cs :: t := by
  simp [qoiHeader, qoifMagic, pack_be32]

theorem stream_length (w h c cs : Nat) (ops ftr : List Nat) (hf : ftr.length = 8) :
    (qoiHeader w h c cs ++ ops ++ ftr).length = 22 + ops.length := by
  simp [qoiHeader, qoifMagic, pack_be32, hf]
  omega

theorem stream_take4 (w h c cs : Nat) (ops ftr : List Nat) :
    (qoiHeader w h c cs ++ ops ++ ftr).take 4 = qoifMagic := by
  rw [List.append_assoc, qoiHeader_cons]
  rfl

theorem stream_getD12 (w h c cs : Nat) (ops ftr : List Nat) :
    (qoiHeader w h c cs ++ ops ++ ftr).getD 12 0 = c := by
  rw [List.append_assoc, qoiHeader_cons]
  rfl

theorem stream_footer (w h c cs : Nat) (ops ftr : List Nat) (hf : ftr.length = 8) :
    (qoiHeader w h c cs ++ ops ++ ftr).drop
      ((qoiHeader w h c cs ++ ops ++ ftr).length - 8) = ftr := by
  rw [stream_length w h c cs ops ftr hf,
    show 22 + ops.length - 8 = (qoiHeader w h c cs ++ ops).length by
      simp [qoiHeader_length]; omega,
    List.drop_left]

theorem stream_ops (w h c cs : Nat) (ops ftr : List Nat) (hf : ftr.length = 8) :
    ((qoiHeader w h c cs ++ ops ++ ftr).drop 14).take
      ((qoiHeader w h c cs ++ ops ++ ftr).length - 22) = ops := by
  rw [stream_length w h c cs ops ftr hf, List.append_assoc,
    show (14 : Nat) = (qoiHeader w h c cs).length from (qoiHeader_length w h c cs).symm,
    List.drop_left, show 22 + ops.length - 22 = ops.length by omega, List.take_left]

/-- `qoi_decode` on a stream assembled from a 14-byte header, an operation
region and an 8-byte trailing block: magic passes, the footer check sees
exactly the trailing block, and the decode loop sees exactly the operation
region. -/
theorem qoi_decode_stream (w h c cs : Nat) (ops ftr : List Nat) (hf : ftr.length = 8) :
    qoi_decode (qoiHeader w h c cs ++ ops ++ ftr) =
      if ¬(c = 3 ∨ c = 4) then
        (decide (ftr ≠ qoiFooter), .error (.valueError ("Encoded channels invalid!")))
      else
        match decodeLoop ops ⟨0, 0, 0, 255⟩ initCache with
        | .error e => (decide (ftr ≠ qoiFooter), .error e)
        | .ok out =>
          if c = 4 then
            (decide (ftr ≠ qoiFooter), .ok (out.map (fun p => [p.r, p.g, p.b, p.a])).flatten)
          else
            (decide (ftr ≠ qoiFooter),
              .ok (stripAlpha (out.map (fun p => [p.r, p.g, p.b, p.a])).flatten)) := by
  rw [qoi_decode, stream_ops w h c cs ops ftr hf, stream_footer w h c cs ops ftr hf,
    stream_getD12 w h c cs ops ftr, stream_take4 w h c cs ops ftr,
    stream_length w h c cs ops ftr hf,
    if_neg (by omega : ¬(22 + ops.length < 14)),
    if_neg (by simp : ¬(qoifMagic ≠ qoifMagic))]

/-! ### The pixel reader: byte bounds, length, and flattening back -/

theorem pixels3_bytes (data : List Nat) (h : ∀ x ∈ data, x < 256) :
    ∀ p ∈ pixels3 data, p.r < 256 ∧ p.g < 256 ∧ p.b < 256 := by
  induction data using pixels3.induct with
  | case1 r g b rest ih =>
    intro p hp
    rw [pixels3, List.mem_cons] at hp
    rcases hp with hp | hp
    · subst hp
      exact ⟨h r (by simp), h g (by simp), h b (by simp)⟩
    · exact ih (fun x hx => h x (by simp [hx])) p hp
  | case2 t hne =>
    intro p hp
    match t, hne with
    | [], _ => simp [pixels3] at hp
    | [x], _ => simp [pixels3] at hp
    | [x, y], _ => simp [pixels3] at hp
    | x :: y :: z :: t3, hne => exact (hne x y z t3 rfl).elim

theorem pixels4_bytes (data : List Nat) (h : ∀ x ∈ data, x < 256) :
    ∀ p ∈ pixels4 data, p.r < 256 ∧ p.g < 256 ∧ p.b < 256 := by
  induction data using pixels4.induct with
  | case1 r g b a rest ih =>
    intro p hp
    rw [pixels4, List.mem_cons] at hp
    rcases hp with hp | hp
    · subst hp
      exact ⟨h r (by simp), h g (by simp), h b (by simp)⟩
    · exact ih (fun x hx => h x (by simp [hx])) p hp
  | case2 t hne =>
    intro p hp
    match t, hne with
    | [], _ => simp [pixels4] at hp
    | [x], _ => simp [pixels4] at hp
    | [x, y], _ => simp [pixels4] at hp
    | [x, y, z], _ => simp [pixels4] at hp
    | x :: y :: z :: u :: t4, hne => exact (hne x y z u t4 rfl).elim

/-- The number of pixels the reader produces: one per full `channels`-byte
group, the trailing fragment dropped. -/
theorem pixels3_length (data : List Nat) : (pixels3 data).length = data.length / 3 := by
  induction data using pixels3.induct with
  | case1 r g b rest ih =>
    rw [pixels3]
    simp only [List.length_cons]
    omega
  | case2 t hne =>
    match t, hne with
    | [], _ => rfl
    | [x], _ => simp [pixels3]
    | [x, y], _ => simp [pixels3]
    | x :: y :: z :: t3, hne => exact (hne x y z t3 rfl).elim

theorem pixels4_length (data : List Nat) : (pixels4 data).length = data.length / 4 := by
  induction data using pixels4.induct with
  | case1 r g b a rest ih =>
    rw [pixels4]
    simp only [List.length_cons]
    omega
  | case2 t hne =>
    match t, hne with
    | [], _ => rfl
    | [x], _ => simp [pixels4]
    | [x, y], _ => simp [pixels4]
    | [x, y, z], _ => simp [pixels4]
    | x :: y :: z :: u :: t4, hne => exact (hne x y z u t4 rfl).elim

/-- Flattening the 4-channel pixels back to bytes recovers the buffer. -/
theorem pixels4_flatten (data : List Nat) (h : data.length % 4 = 0) :
    ((pixels4 data).map (fun p => [p.r, p.g, p.b, p.a])).flatten = data := by
  induction data using pixels4.induct with
  | case1 r g b a rest ih =>
    rw [pixels4]
    simp only [List.map_cons, List.flatten_cons, List.cons_append, List.nil_append]
    rw [ih (by simp at h; omega)]
  | case2 t hne =>
    match t, hne with
    | [], _ => rfl
    | [x], _ => simp at h
    | [x, y], _ => simp at h
    | [x, y, z], _ => simp at h
    | x :: y :: z :: u :: t4, hne => exact (hne x y z u t4 rfl).elim

/-- Flattening the 3-channel pixels and stripping every fourth byte
recovers the buffer. -/
theorem pixels3_flatten_strip (data : List Nat) (h : data.length % 3 = 0) :
    stripAlpha ((pixels3 data).map (fun p => [p.r, p.g, p.b, p.a])).flatten = data := by
  induction data using pixels3.induct with
  | case1 r g b rest ih =>
    rw [pixels3]
    simp only [List.map_cons, List.flatten_cons, List.cons_append, List.nil_append]
    rw [stripAlpha, ih (by simp at h; omega)]
  | case2 t hne =>
    match t, hne with
    | [], _ => rfl
    | [x], _ => simp at h
    | [x, y], _ => simp at h
    | x :: y :: z :: t3, hne => exact (hne x y z t3 rfl).elim

/-! ### The encoder on valid arguments -/

/-- On arguments passing validation (and with 32-bit-packable dimensions),
`qoi_encode` succeeds and its output is header ++ operation bytes ++
footer, where the operation bytes depend only on `data` and `channels`. -/
theorem qoi_encode_ok (w h c cs : Int) (data : List Nat)
    (hw : 0 < w) (hw32 : w < 4294967296) (hh : 0 < h) (hh32 : h < 4294967296)
    (hc : c = 3 ∨ c = 4) (hcs : cs = 0 ∨ cs = 1)
    (hlen : w * h * c ≤ (data.length : Int)) :
    qoi_encode w h data c cs =
      .ok (qoiHeader w.toNat h.toNat c.toNat cs.toNat ++
        (encodeLoop ⟨0, 0, 0, 255⟩ initCache 0 (pixels data c) ++ qoiFooter)) := by
  rw [qoi_encode, if_neg (by omega : ¬w ≤ 0), if_neg (by omega : ¬h ≤ 0),
    if_neg (by simp only [CHANNELS_RGB, CHANNELS_RGBA, not_not]; exact hc),
    if_neg (by simp only [COLORSPACE_SRGB_WITH_LINEAR_ALPHA,
      COLORSPACE_ALL_CHANNELS_LINEAR, not_not]; exact hcs),
    if_neg (by omega : ¬(data.length : Int) < w * h * c),
    if_neg (by omega : ¬(4294967296 ≤ w ∨ 4294967296 ≤ h))]

theorem qoi_decode_stream_ok (w h c cs : Nat) (ops ftr : List Nat) (out : List Pixel)
    (hf : ftr.length = 8) (hc34 : c = 3 ∨ c = 4)
    (hdec : decodeLoop ops ⟨0, 0, 0, 255⟩ initCache = .ok out) :
    qoi_decode (qoiHeader w h c cs ++ ops ++ ftr) =
      if c = 4 then
        (decide (ftr ≠ qoiFooter), .ok (out.map (fun p => [p.r, p.g, p.b, p.a])).flatten)
      else
        (decide (ftr ≠ qoiFooter),
          .ok (stripAlpha (out.map (fun p => [p.r, p.g, p.b, p.a])).flatten)) := by
  rw [qoi_decode_stream w h c cs ops ftr hf, if_neg (not_not_intro hc34), hdec]

theorem qoi_decode_stream_error (w h c cs : Nat) (ops ftr : List Nat) (e : QoiError)
    (hf : ftr.length = 8) (hc34 : c = 3 ∨ c = 4)
    (hdec : decodeLoop ops ⟨0, 0, 0, 255⟩ initCache = .error e) :
    qoi_decode (qoiHeader w h c cs ++ ops ++ ftr) =
      (decide (ftr ≠ qoiFooter), .error e) := by
  rw [qoi_decode_stream w h c cs ops ftr hf, if_neg (not_not_intro hc34), hdec]

/-- Decoding the encoder's output recovers the original buffer (no footer
warning). -/
theorem qoi_decode_of_encoded (w h c cs : Int) (data : List Nat)
    (hc : c = 3 ∨ c = 4) (hbytes : ∀ x ∈ data, x < 256)
    (hdvd : (data.length : Int) % c = 0) :
    qoi_decode (qoiHeader w.toNat h.toNat c.toNat cs.toNat ++
      (encodeLoop ⟨0, 0, 0, 255⟩ initCache 0 (pixels data c) ++ qoiFooter)) =
      (false, .ok data) := by
  rw [← List.append_assoc]
  rcases hc with hc | hc <;> subst hc
  · have hpx : pixels data 3 = pixels3 data := by simp [pixels, CHANNELS_RGB]
    rw [hpx, qoi_decode_stream_ok w.toNat h.toNat (3 : Int).toNat cs.toNat
      (encodeLoop ⟨0, 0, 0, 255⟩ initCache 0 (pixels3 data)) qoiFooter (pixels3 data)
      rfl (by simp)
      (by
        have hd := decodeLoop_encodeLoop (pixels3 data) ⟨0, 0, 0, 255⟩ initCache
          initCache 0 (by omega) cacheSync_init (pixels3_bytes data hbytes)
        rw [hd, List.replicate_zero, List.nil_append]),
      if_neg (by simp : ¬(3 : Int).toNat = 4)]
    rw [pixels3_flatten_strip data (by omega)]
    simp
  · have hpx : pixels data 4 = pixels4 data := by simp [pixels, CHANNELS_RGB]
    rw [hpx, qoi_decode_stream_ok w.toNat h.toNat (4 : Int).toNat cs.toNat
      (encodeLoop ⟨0, 0, 0, 255⟩ initCache 0 (pixels4 data)) qoiFooter (pixels4 data)
      rfl (by simp)
      (by
        have hd := decodeLoop_encodeLoop (pixels4 data) ⟨0, 0, 0, 255⟩ initCache
          initCache 0 (by omega) cacheSync_init (pixels4_bytes data hbytes)
        rw [hd, List.replicate_zero, List.nil_append]),
      if_pos (by simp : (4 : Int).toNat = 4)]
    rw [pixels4_flatten data (by omega)]
    simp

/-! ### Claims -/

/-- C1 (amended): for every width and height in `[1, 2^32)`, channels in
`{3, 4}`, colorspace in `{0, 1}`, and byte buffer `data` with
`len(data) = width*height*channels`, decoding the result of `qoi_encode`
with `qoi_decode` yields exactly the original buffer, byte for byte (and
no footer warning).  The bound `2^32` is forced by `struct.pack('>I', ...)`
in the header: see the counterexample. -/
theorem C1_roundtrip (w h c cs : Int) (data : List Nat)
    (hw : 0 < w) (hw32 : w < 4294967296) (hh : 0 < h) (hh32 : h < 4294967296)
    (hc : c = 3 ∨ c = 4) (hcs : cs = 0 ∨ cs = 1)
    (hbytes : ∀ x ∈ data, x < 256)
    (hlen : (data.length : Int) = w * h * c) :
    ∃ out, qoi_encode w h data c cs = .ok out ∧ qoi_decode out = (false, .ok data) := by
  refine ⟨_, qoi_encode_ok w h c cs data hw hw32 hh hh32 hc hcs (le_of_eq hlen.symm), ?_⟩
  apply qoi_decode_of_encoded w h c cs data hc hbytes
  rcases hc with hc | hc <;> subst hc <;> omega

theorem C1_roundtrip_witness :
    ∃ out, qoi_encode 1 1 [10, 20, 30] 3 0 = .ok out ∧
      qoi_decode out = (false, .ok [10, 20, 30]) :=
  C1_roundtrip 1 1 3 0 [10, 20, 30] (by decide) (by decide) (by decide) (by decide)
    (Or.inl rfl) (Or.inl rfl) (by decide) (by decide)

/-- C1 counterexample: at `width = 2^32` (with `height = 1`, `channels = 3`,
and a buffer of exactly `width*height*channels` bytes) the claim's
premises hold, yet `qoi_encode` fails: `struct.pack('>I', width)` raises
`struct.error` because the width does not fit an unsigned 32-bit field, so
no stream is produced and nothing can decode back to `data`. -/
theorem C1_counterexample :
    qoi_encode 4294967296 1 (List.replicate 12884901888 0) 3 0 =
      .error .structError := by
  rw [qoi_encode, if_neg (by decide), if_neg (by decide), if_neg (by decide),
    if_neg (by decide),
    if_neg (by rw [List.length_replicate]; decide),
    if_pos (Or.inl (by decide))]

/-- C2 (amended): a pixel whose alpha differs from the previous pixel's is
never part of a run (it differs from the previous pixel), and is encoded
either as a 1-byte INDEX operation — when it already occupies its hash slot
in the cache, which the encoder checks first — or else as the 5-byte RGBA
literal.  It is never encoded as DIFF, LUMA, RGB or RUN. -/
theorem C2_alpha_op (prev_pixel p : Pixel) (cache : Cache) (h : p.a ≠ prev_pixel.a) :
    p ≠ prev_pixel ∧
    (encOp prev_pixel cache p).1 =
      (if cache (qoi_index_position p) = p then
        [TAG_QOI_OP_INDEX ||| qoi_index_position p]
      else [TAG_QOI_OP_RGBA, p.r, p.g, p.b, p.a]) := by
  constructor
  · intro he
    exact h (he ▸ rfl)
  · by_cases hidx : cache (qoi_index_position p) = p
    · simp only [encOp, if_pos hidx]
    · simp only [encOp, if_neg hidx, if_pos (Ne.symm h)]

theorem C2_alpha_op_witness :
    ((⟨0, 255, 0, 127⟩ : Pixel) ≠ ⟨0, 0, 0, 255⟩) ∧
    (encOp ⟨0, 0, 0, 255⟩ initCache ⟨0, 255, 0, 127⟩).1 =
      [TAG_QOI_OP_RGBA, 0, 255, 0, 127] := by
  have h := C2_alpha_op ⟨0, 0, 0, 255⟩ ⟨0, 255, 0, 127⟩ initCache (by decide)
  exact ⟨h.1, by rw [h.2]; decide⟩

/-- C2 counterexample: in the 4-channel image below (the opening of the
source's own self-test), the third pixel `(0,255,0,127)` changes alpha
(127 vs the previous 255) yet is emitted as the single INDEX byte
`0x30 = 48`, not as a 5-byte RGBA literal: it was cached at slot 48 by the
first pixel, and the encoder checks INDEX before the alpha test. -/
theorem C2_counterexample :
    qoi_encode 3 1 [0, 255, 0, 127, 0, 0, 0, 255, 0, 255, 0, 127] 4 0 =
      .ok (qoiHeader 3 1 4 0 ++
        ([TAG_QOI_OP_RGBA, 0, 255, 0, 127, TAG_QOI_OP_RGBA, 0, 0, 0, 255, 48] ++
          qoiFooter)) ∧
    (48 : Nat) ≠ TAG_QOI_OP_RGBA := by decide

/-- C5 (amended): a sequence of 130 pixels each equal to the running
previous pixel — here an image of 130 pixels all `(0,0,0,255)`, equal to
the encoder's initial previous pixel — encodes to exactly three RUN
operations with biased counts 61, 61, 5 (62, 62 and 6 pixels), and no
other operation.  When the 130 identical pixels differ from the preceding
pixel the first one is encoded by a non-RUN operation and the remaining
129 split as 61, 61, 4: see the counterexample. -/
theorem C5_run_split :
    qoi_encode 130 1 (List.replicate 390 0) 3 0 =
      .ok (qoiHeader 130 1 3 0 ++
        ([TAG_QOI_OP_RUN ||| 61, TAG_QOI_OP_RUN ||| 61, TAG_QOI_OP_RUN ||| 5] ++
          qoiFooter)) := by decide

/-- C5 counterexample: 130 identical pixels `(255,255,255,255)` in a
4-channel image do **not** produce three RUN operations with biased counts
61, 61, 5.  The first pixel differs from the initial previous pixel
`(0,0,0,255)` and is emitted as a DIFF byte `0x55`; the remaining 129
identical pixels produce RUN operations with biased counts 61, 61, 4. -/
theorem C5_counterexample :
    qoi_encode 130 1 (List.replicate 520 255) 4 0 =
      .ok (qoiHeader 130 1 4 0 ++
        ([0x55, TAG_QOI_OP_RUN ||| 61, TAG_QOI_OP_RUN ||| 61, TAG_QOI_OP_RUN ||| 4] ++
          qoiFooter)) ∧
    [(0x55 : Nat), TAG_QOI_OP_RUN ||| 61, TAG_QOI_OP_RUN ||| 61, TAG_QOI_OP_RUN ||| 4] ≠
      [TAG_QOI_OP_RUN ||| 61, TAG_QOI_OP_RUN ||| 61, TAG_QOI_OP_RUN ||| 5] := by decide

/-- C6 (amended): for a pixel that differs from the previous pixel, whose
alpha is unchanged, **and which does not match its hash slot in the pixel
cache** (the encoder checks INDEX first — see the counterexample), the
wrapped signed per-channel deltas being each in `[-2, 1]` makes the encoder
emit the 1-byte DIFF operation; when any delta falls outside `[-2, 1]` the
pixel is not encoded as DIFF and falls back to a 2-byte LUMA operation or a
4-byte RGB literal. -/
theorem C6_diff_boundary (prev_pixel p : Pixel) (cache : Cache)
    (hidx : cache (qoi_index_position p) ≠ p) (ha : prev_pixel.a = p.a) :
    ((-2 ≤ s8_arith ((p.r : Int) - (prev_pixel.r : Int)) ∧
      s8_arith ((p.r : Int) - (prev_pixel.r : Int)) ≤ 1 ∧
      -2 ≤ s8_arith ((p.g : Int) - (prev_pixel.g : Int)) ∧
      s8_arith ((p.g : Int) - (prev_pixel.g : Int)) ≤ 1 ∧
      -2 ≤ s8_arith ((p.b : Int) - (prev_pixel.b : Int)) ∧
      s8_arith ((p.b : Int) - (prev_pixel.b : Int)) ≤ 1) →
      (encOp prev_pixel cache p).1 =
        [TAG_QOI_OP_DIFF |||
          (s8_arith ((p.r : Int) - (prev_pixel.r : Int)) + 2).toNat <<< 4 |||
          (s8_arith ((p.g : Int) - (prev_pixel.g : Int)) + 2).toNat <<< 2 |||
          (s8_arith ((p.b : Int) - (prev_pixel.b : Int)) + 2).toNat]) ∧
    (¬(-2 ≤ s8_arith ((p.r : Int) - (prev_pixel.r : Int)) ∧
      s8_arith ((p.r : Int) - (prev_pixel.r : Int)) ≤ 1 ∧
      -2 ≤ s8_arith ((p.g : Int) - (prev_pixel.g : Int)) ∧
      s8_arith ((p.g : Int) - (prev_pixel.g : Int)) ≤ 1 ∧
      -2 ≤ s8_arith ((p.b : Int) - (prev_pixel.b : Int)) ∧
      s8_arith ((p.b : Int) - (prev_pixel.b : Int)) ≤ 1) →
      (encOp prev_pixel cache p).1 =
        [TAG_QOI_OP_LUMA |||
          (s8_arith ((p.g : Int) - (prev_pixel.g : Int)) + 32).toNat,
          (s8_arith (s8_arith ((p.r : Int) - (prev_pixel.r : Int)) -
            s8_arith ((p.g : Int) - (prev_pixel.g : Int))) + 8).toNat <<< 4 |||
          (s8_arith (s8_arith ((p.b : Int) - (prev_pixel.b : Int)) -
            s8_arith ((p.g : Int) - (prev_pixel.g : Int))) + 8).toNat] ∨
      (encOp prev_pixel cache p).1 = [TAG_QOI_OP_RGB, p.r, p.g, p.b]) := by
  constructor
  · intro hd
    simp only [encOp, if_neg hidx, if_neg (not_not_intro ha), if_pos hd]
  · intro hd
    by_cases hl : -32 ≤ s8_arith ((p.g : Int) - (prev_pixel.g : Int)) ∧
        s8_arith ((p.g : Int) - (prev_pixel.g : Int)) ≤ 31 ∧
        -8 ≤ s8_arith (s8_arith ((p.r : Int) - (prev_pixel.r : Int)) -
          s8_arith ((p.g : Int) - (prev_pixel.g : Int))) ∧
        s8_arith (s8_arith ((p.r : Int) - (prev_pixel.r : Int)) -
          s8_arith ((p.g : Int) - (prev_pixel.g : Int))) ≤ 7 ∧
        -8 ≤ s8_arith (s8_arith ((p.b : Int) - (prev_pixel.b : Int)) -
          s8_arith ((p.g : Int) - (prev_pixel.g : Int))) ∧
        s8_arith (s8_arith ((p.b : Int) - (prev_pixel.b : Int)) -
          s8_arith ((p.g : Int) - (prev_pixel.g : Int))) ≤ 7
    · left
      simp only [encOp, if_neg hidx, if_neg (not_not_intro ha), if_neg hd, if_pos hl]
    · right
      simp only [encOp, if_neg hidx, if_neg (not_not_intro ha), if_neg hd, if_neg hl]

theorem C6_diff_boundary_witness :
    (encOp ⟨0, 0, 0, 255⟩ initCache ⟨1, 255, 0, 255⟩).1 = [0x76] := by
  have h := C6_diff_boundary ⟨0, 0, 0, 255⟩ ⟨1, 255, 0, 255⟩ initCache (by decide) rfl
  rw [h.1 (by decide)]
  decide

/-- C6 counterexample: in the 3-channel image below the third pixel
`(1,1,1)` differs from the previous pixel `(2,2,2)` with wrapped deltas
`(-1,-1,-1)`, all inside `[-2,1]`, and unchanged alpha — yet it is emitted
as the INDEX byte `0x04` (top two bits `00`), not as a DIFF operation: the
first pixel stored `(1,1,1,255)` at its hash slot 4 and the encoder checks
INDEX before DIFF. -/
theorem C6_counterexample :
    qoi_encode 3 1 [1, 1, 1, 2, 2, 2, 1, 1, 1] 3 0 =
      .ok (qoiHeader 3 1 3 0 ++ ([0x7f, 0x7f, 0x04] ++ qoiFooter)) ∧
    (0x04 : Nat) &&& TAG_QOI_2B_MASK = TAG_QOI_OP_INDEX := by decide

theorem except_map_ne_error {α β : Type} (f : α → β) (e : Except QoiError α)
    (err : QoiError) (h : e ≠ .error err) : Except.map f e ≠ .error err := by
  cases e with
  | ok a => simp [Except.map]
  | error x =>
    simp only [Except.map]
    intro hx
    injection hx with hx
    exact h (by rw [hx])

/-- No branch of the decoder can produce the spec's `truncatedDataError`:
every premature end of operands is a bare `stopIteration`. -/
theorem decodeLoop_not_truncated :
    ∀ (n : Nat) (ops : List Nat) (prev : Pixel) (dc : Cache), ops.length ≤ n →
      decodeLoop ops prev dc ≠ .error .truncatedDataError := by
  intro n
  induction n with
  | zero =>
    intro ops prev dc hlen
    have : ops = [] := List.eq_nil_of_length_eq_zero (by omega)
    subst this
    rw [decodeLoop]
    simp
  | succ m ih =>
    intro ops prev dc hlen
    match ops with
    | [] =>
      rw [decodeLoop]
      simp
    | tag :: rest =>
      rw [decodeLoop]
      simp only [List.length_cons] at hlen
      split_ifs with h1 h2 h3 h4 h5
      · match rest with
        | [] => simp [decodeRGB]
        | [x] => simp [decodeRGB]
        | [x, y] => simp [decodeRGB]
        | r :: g :: b :: rest2 =>
          rw [decodeRGB]
          exact except_map_ne_error _ _ _ (ih rest2 _ _ (by simp at hlen; omega))
      · match rest with
        | [] => simp [decodeRGBA]
        | [x] => simp [decodeRGBA]
        | [x, y] => simp [decodeRGBA]
        | [x, y, z] => simp [decodeRGBA]
        | r :: g :: b :: a :: rest2 =>
          rw [decodeRGBA]
          exact except_map_ne_error _ _ _ (ih rest2 _ _ (by simp at hlen; omega))
      · exact except_map_ne_error _ _ _ (ih rest _ _ (by omega))
      · exact except_map_ne_error _ _ _ (ih rest _ _ (by omega))
      · match rest with
        | [] => simp [decodeLUMA]
        | diffs :: rest2 =>
          rw [decodeLUMA]
          exact except_map_ne_error _ _ _ (ih rest2 _ _ (by simp at hlen; omega))
      · exact except_map_ne_error _ _ _ (ih rest _ _ (by omega))

/-- C3 (amended): when an operation tag's required trailing bytes lie beyond
the end of the operation-byte region, the decoder surfaces the bare
iterator fault `StopIteration` of `next(data_iter)` — there is no distinct
`TruncatedDataError` in this implementation, and no decode ever produces
one. -/
theorem C3_truncation :
    (∀ (prev_pixel : Pixel) (cache : Cache),
      decodeLoop [TAG_QOI_OP_RGB] prev_pixel cache = .error .stopIteration) ∧
    (∀ (x : Nat) (prev_pixel : Pixel) (cache : Cache),
      decodeLoop [TAG_QOI_OP_RGB, x] prev_pixel cache = .error .stopIteration) ∧
    (∀ (x y : Nat) (prev_pixel : Pixel) (cache : Cache),
      decodeLoop [TAG_QOI_OP_RGB, x, y] prev_pixel cache = .error .stopIteration) ∧
    (∀ (prev_pixel : Pixel) (cache : Cache),
      decodeLoop [TAG_QOI_OP_RGBA] prev_pixel cache = .error .stopIteration) ∧
    (∀ (x : Nat) (prev_pixel : Pixel) (cache : Cache),
      decodeLoop [TAG_QOI_OP_RGBA, x] prev_pixel cache = .error .stopIteration) ∧
    (∀ (x y : Nat) (prev_pixel : Pixel) (cache : Cache),
      decodeLoop [TAG_QOI_OP_RGBA, x, y] prev_pixel cache = .error .stopIteration) ∧
    (∀ (x y z : Nat) (prev_pixel : Pixel) (cache : Cache),
      decodeLoop [TAG_QOI_OP_RGBA, x, y, z] prev_pixel cache = .error .stopIteration) ∧
    (∀ (t : Nat) (prev_pixel : Pixel) (cache : Cache),
      t &&& TAG_QOI_2B_MASK = TAG_QOI_OP_LUMA →
      decodeLoop [t] prev_pixel cache = .error .stopIteration) ∧
    (∀ (data : List Nat), (qoi_decode data).2 ≠ .error .truncatedDataError) := by
  refine ⟨?_, ?_, ?_, ?_, ?_, ?_, ?_, ?_, ?_⟩
  · intro prev cache; simp [decodeLoop, decodeRGB]
  · intro x prev cache; simp [decodeLoop, decodeRGB]
  · intro x y prev cache; simp [decodeLoop, decodeRGB]
  · intro prev cache
    simp [decodeLoop, decodeRGBA, TAG_QOI_OP_RGB, TAG_QOI_OP_RGBA]
  · intro x prev cache
    simp [decodeLoop, decodeRGBA, TAG_QOI_OP_RGB, TAG_QOI_OP_RGBA]
  · intro x y prev cache
    simp [decodeLoop, decodeRGBA, TAG_QOI_OP_RGB, TAG_QOI_OP_RGBA]
  · intro x y z prev cache
    simp [decodeLoop, decodeRGBA, TAG_QOI_OP_RGB, TAG_QOI_OP_RGBA]
  · intro t prev cache ht
    have h1 : t ≠ TAG_QOI_OP_RGB := by
      intro he; rw [he] at ht; exact absurd ht (by decide)
    have h2 : t ≠ TAG_QOI_OP_RGBA := by
      intro he; rw [he] at ht; exact absurd ht (by decide)
    have h3 : ¬(t &&& TAG_QOI_2B_MASK = TAG_QOI_OP_INDEX) := by rw [ht]; decide
    have h4 : ¬(t &&& TAG_QOI_2B_MASK = TAG_QOI_OP_DIFF) := by rw [ht]; decide
    rw [decodeLoop, if_neg h1, if_neg h2, if_neg h3, if_neg h4, if_pos ht]
    simp [decodeLUMA]
  · intro data
    rw [qoi_decode]
    split_ifs with g1 g2
    · simp
    · simp
    · simp only []
      split_ifs with g3 g4
      · cases hdec : decodeLoop ((data.drop 14).take (data.length - 22)) ⟨0, 0, 0, 255⟩
            initCache with
        | error e =>
          have h5 := decodeLoop_not_truncated
            (((data.drop 14).take (data.length - 22)).length)
            ((data.drop 14).take (data.length - 22)) ⟨0, 0, 0, 255⟩ initCache le_rfl
          rw [hdec] at h5
          simpa using h5
        | ok out => simp
      · cases hdec : decodeLoop ((data.drop 14).take (data.length - 22)) ⟨0, 0, 0, 255⟩
            initCache with
        | error e =>
          have h5 := decodeLoop_not_truncated
            (((data.drop 14).take (data.length - 22)).length)
            ((data.drop 14).take (data.length - 22)) ⟨0, 0, 0, 255⟩ initCache le_rfl
          rw [hdec] at h5
          simpa using h5
        | ok out => simp
      · simp

theorem C3_truncation_witness :
    decodeLoop [TAG_QOI_OP_RGB] ⟨0, 0, 0, 255⟩ initCache = .error .stopIteration ∧
    decodeLoop [TAG_QOI_OP_LUMA] ⟨0, 0, 0, 255⟩ initCache = .error .stopIteration ∧
    (qoi_decode []).2 ≠ .error .truncatedDataError :=
  ⟨C3_truncation.1 ⟨0, 0, 0, 255⟩ initCache,
   C3_truncation.2.2.2.2.2.2.2.1 TAG_QOI_OP_LUMA ⟨0, 0, 0, 255⟩ initCache (by decide),
   C3_truncation.2.2.2.2.2.2.2.2 []⟩

/-- C3 counterexample: a stream whose single operation byte is the RGB tag
`0xfe` with no trailing bytes makes `qoi_decode` surface the low-level
iteration fault `StopIteration`, not a `TruncatedDataError`. -/
theorem C3_counterexample :
    qoi_decode [0x71, 0x6f, 0x69, 0x66, 0, 0, 0, 1, 0, 0, 0, 1, 4, 0,
      0xfe, 0, 0, 0, 0, 0, 0, 0, 1] = (false, .error .stopIteration) ∧
    QoiError.stopIteration ≠ QoiError.truncatedDataError := by decide

/-- C4: a magic tag other than `qoif` is fatal — `qoi_decode` raises a
`ValueError` (with no footer warning: the magic check precedes the footer
check) — while a trailing 8-byte block other than
`00 00 00 00 00 00 00 01` is only reported through the non-fatal warning
flag: for a stream whose header and operation bytes are intact, the decode
outcome (error or pixel bytes) is the same with any trailing block as with
the correct footer. -/
theorem C4_footer_leniency :
    (∀ (data : List Nat), 14 ≤ data.length → data.take 4 ≠ qoifMagic →
      qoi_decode data = (false, .error (.valueError ("qoi file invalid!")))) ∧
    (∀ (w h c cs : Nat) (ops ftr : List Nat), ftr.length = 8 →
      (qoi_decode (qoiHeader w h c cs ++ ops ++ ftr)).2 =
        (qoi_decode (qoiHeader w h c cs ++ ops ++ qoiFooter)).2) := by
  constructor
  · intro data hlen hmagic
    rw [qoi_decode, if_neg (by omega), if_pos hmagic]
  · intro w h c cs ops ftr hf
    rw [qoi_decode_stream w h c cs ops ftr hf,
      qoi_decode_stream w h c cs ops qoiFooter rfl]
    by_cases g : ¬(c = 3 ∨ c = 4)
    · rw [if_pos g, if_pos g]
    · rw [if_neg g, if_neg g]
      cases decodeLoop ops ⟨0, 0, 0, 255⟩ initCache with
      | error e => rfl
      | ok out => split_ifs <;> rfl

theorem C4_footer_leniency_witness :
    qoi_decode [0, 0, 0, 0, 0, 0, 0, 1, 0, 0, 0, 1, 4, 0, 0, 0, 0, 0, 0, 0, 0, 1] =
      (false, .error (.valueError ("qoi file invalid!"))) ∧
    (qoi_decode (qoiHeader 1 1 4 0 ++ [TAG_QOI_OP_RUN ||| 0] ++
      [9, 9, 9, 9, 9, 9, 9, 9])).2 =
      (qoi_decode (qoiHeader 1 1 4 0 ++ [TAG_QOI_OP_RUN ||| 0] ++ qoiFooter)).2 :=
  ⟨C4_footer_leniency.1 _ (by decide) (by decide),
   C4_footer_leniency.2 1 1 4 0 [TAG_QOI_OP_RUN ||| 0] [9, 9, 9, 9, 9, 9, 9, 9]
     (by decide)⟩

/-- C7: `qoi_encode` raises a `ValueError` (the `InvalidArgument`-style
error) exactly when width ≤ 0, height ≤ 0, channels is not 3 or 4,
colorspace is not 0 or 1, or the buffer is shorter than
`width*height*channels`; the checks run before any pixel is read, and for
arguments satisfying all conditions no `ValueError` is raised (the only
later failure kind is `struct.error`, for dimensions ≥ 2^32). -/
theorem C7_validation (w h c cs : Int) (data : List Nat) :
    (∃ msg, qoi_encode w h data c cs = .error (.valueError msg)) ↔
      (w ≤ 0 ∨ h ≤ 0 ∨ ¬(c = 3 ∨ c = 4) ∨ ¬(cs = 0 ∨ cs = 1) ∨
        (data.length : Int) < w * h * c) := by
  rw [qoi_encode]
  split_ifs with h1 h2 h3 h4 h5 h6 <;>
    simp_all [CHANNELS_RGB, CHANNELS_RGBA, COLORSPACE_SRGB_WITH_LINEAR_ALPHA,
      COLORSPACE_ALL_CHANNELS_LINEAR]

/-- C8 (amended): `qoi_decode` returns only the footer-warning flag and the
decoded pixel bytes; the width, height and colorspace declared in the
header are parsed but are neither returned nor able to influence the
result — two streams with the same channel byte and the same operation
bytes decode identically whatever their declared geometry and
colorspace. -/
theorem C8_decode_result (w1 h1 cs1 w2 h2 cs2 c : Nat) (ops : List Nat) :
    qoi_decode (qoiHeader w1 h1 c cs1 ++ ops ++ qoiFooter) =
      qoi_decode (qoiHeader w2 h2 c cs2 ++ ops ++ qoiFooter) := by
  rw [qoi_decode_stream w1 h1 c cs1 ops qoiFooter rfl,
    qoi_decode_stream w2 h2 c cs2 ops qoiFooter rfl]

/-- C8 counterexample: two well-formed streams that differ in their declared
width, height and colorspace decode to the *same* value — `qoi_decode`
returns only the pixel bytes (with the warning flag), not the tuple
`(width, height, channel_count, colorspace, pixel_bytes)` the claim
describes, so its result cannot contain the header fields. -/
theorem C8_counterexample :
    qoi_decode [0x71, 0x6f, 0x69, 0x66, 0, 0, 0, 1, 0, 0, 0, 1, 4, 0,
        0, 0, 0, 0, 0, 0, 0, 1] =
      qoi_decode [0x71, 0x6f, 0x69, 0x66, 0, 0, 0, 7, 0, 0, 0, 9, 4, 1,
        0, 0, 0, 0, 0, 0, 0, 1] ∧
    [0x71, 0x6f, 0x69, 0x66, 0, 0, 0, 1, 0, 0, 0, 1, 4, 0,
        0, 0, 0, 0, 0, 0, 0, 1] ≠
      [(0x71 : Nat), 0x6f, 0x69, 0x66, 0, 0, 0, 7, 0, 0, 0, 9, 4, 1,
        0, 0, 0, 0, 0, 0, 0, 1] := by decide

/-- C9 (amended): for arguments passing validation whose width and height
are also below `2^32` (so the header pack succeeds — see the
counterexample for the boundary), the encoder reads exactly
`len(data) div channels` pixels — the whole buffer, not just
`width*height` pixels, with any trailing fragment shorter than one pixel
silently dropped — and width and height influence only the validation and
the header: the operation-byte stream is a function of `data` and
`channels` alone. -/
theorem C9_pixel_consumption (data : List Nat) (c cs : Int)
    (hc : c = 3 ∨ c = 4) (hcs : cs = 0 ∨ cs = 1) :
    (pixels data c).length = data.length / c.toNat ∧
    ∀ (w h : Int), 0 < w → w < 4294967296 → 0 < h → h < 4294967296 →
      w * h * c ≤ (data.length : Int) →
      qoi_encode w h data c cs =
        .ok (qoiHeader w.toNat h.toNat c.toNat cs.toNat ++
          (encodeLoop ⟨0, 0, 0, 255⟩ initCache 0 (pixels data c) ++ qoiFooter)) := by
  constructor
  · rcases hc with hc | hc <;> subst hc
    · rw [show pixels data 3 = pixels3 data by simp [pixels, CHANNELS_RGB],
        pixels3_length]
      rfl
    · rw [show pixels data 4 = pixels4 data by simp [pixels, CHANNELS_RGB],
        pixels4_length]
      rfl
  · intro w h hw hw32 hh hh32 hlen
    exact qoi_encode_ok w h c cs data hw hw32 hh hh32 hc hcs hlen

theorem C9_pixel_consumption_witness :
    (pixels [9, 9, 9, 9, 9, 9, 9] 3).length = 7 / 3 ∧
    qoi_encode 1 1 [9, 9, 9, 9, 9, 9, 9] 3 0 =
      .ok (qoiHeader 1 1 3 0 ++
        (encodeLoop ⟨0, 0, 0, 255⟩ initCache 0 (pixels [9, 9, 9, 9, 9, 9, 9] 3) ++
          qoiFooter)) := by
  have h := C9_pixel_consumption [9, 9, 9, 9, 9, 9, 9] 3 0 (Or.inl rfl) (Or.inl rfl)
  exact ⟨by rw [h.1]; rfl, h.2 1 1 (by decide) (by decide) (by decide) (by decide) (by decide)⟩

/-- C9 counterexample: at `height = 2^32` (width 1, channels 3, and a
buffer of exactly `width*height*channels` bytes) all five validation
checks pass, yet `qoi_encode` fails with `struct.error` from
`struct.pack('>I', height)` before the pixel loop runs: zero pixels are
consumed and no operation stream exists, so the encoder does not encode
`len(data) div channels` pixels and the height has influenced more than
the validation and the header. -/
theorem C9_counterexample :
    qoi_encode 1 4294967296 (List.replicate 12884901888 0) 3 0 =
      .error .structError := by
  rw [qoi_encode, if_neg (by decide), if_neg (by decide), if_neg (by decide),
    if_neg (by decide),
    if_neg (by rw [List.length_replicate]; decide),
    if_pos (Or.inr (by decide))]

/-- C10: `qoi_decode` raises a `ValueError` whenever the channel-count byte
at offset 12 is neither 3 nor 4 — whatever the operation bytes hold, so no
partial pixel output is produced — with the warning flag showing the footer
was already checked; and a bad magic tag raises its own `ValueError` first,
even when the channel byte is also invalid. -/
theorem C10_channels_check :
    (∀ (w h c cs : Nat) (ops ftr : List Nat), ftr.length = 8 → c ≠ 3 → c ≠ 4 →
      qoi_decode (qoiHeader w h c cs ++ ops ++ ftr) =
        (decide (ftr ≠ qoiFooter),
          .error (.valueError ("Encoded channels invalid!")))) ∧
    (∀ (data : List Nat), 14 ≤ data.length → data.take 4 ≠ qoifMagic →
      qoi_decode data = (false, .error (.valueError ("qoi file invalid!")))) := by
  constructor
  · intro w h c cs ops ftr hf hc3 hc4
    rw [qoi_decode_stream w h c cs ops ftr hf, if_pos (by tauto)]
  · intro data hlen hmagic
    rw [qoi_decode, if_neg (by omega), if_pos hmagic]

theorem C10_channels_check_witness :
    qoi_decode (qoiHeader 1 1 5 0 ++ [TAG_QOI_OP_RGB] ++ qoiFooter) =
      (decide (qoiFooter ≠ qoiFooter),
        .error (.valueError ("Encoded channels invalid!"))) ∧
    qoi_decode [1, 2, 3, 4, 0, 0, 0, 1, 0, 0, 0, 1, 5, 0, 0, 0, 0, 0, 0, 0, 0, 1] =
      (false, .error (.valueError ("qoi file invalid!"))) :=
  ⟨C10_channels_check.1 1 1 5 0 [TAG_QOI_OP_RGB] qoiFooter rfl (by decide) (by decide),
   C10_channels_check.2 _ (by decide) (by decide)⟩
